import Mathlib

/-!
Verification development for the AppleScript MCP server
(`src/applescript_mcp/server.py`).

The heart of the program is the tool-call handler `handle_call_tool`
(lines 180-229 of `server.py`).  It validates the incoming call, stages
the script body in a temporary `.scpt` file, runs `/usr/bin/osascript`
on it via `subprocess.run` under a timeout, classifies the outcome into
a single returned text block, and unlinks the temporary file in a
`finally` block whose own failure is swallowed by a bare `except: pass`.

The handler's interaction with the outside world is modelled by an
`Env` oracle fixing, for one invocation, the name the temporary-file
module picks, whether creating or writing the temporary file raises,
the outcome of `subprocess.run`, and whether `os.unlink` succeeds.  The
handler is then a pure function of the tool name, the arguments and the
oracle.  Every `return` site of the Python function corresponds to one
branch of the Lean function.  Besides the returned list of text blocks
the model records the sequence of externally visible effects
(temporary-file creation, process spawn, the kill that `subprocess.run`
performs on timeout, unlink) and a `Status` tag naming the outcome
class of the chosen return site.
-/

namespace AppleScriptMCP

/-- Outcome of the `subprocess.run` call as observed by the handler:
the process completed with an exit code and captured output streams
(server.py line 203), or `subprocess.TimeoutExpired` was raised
(line 215; per the documented contract of `subprocess.run`, the library
kills and reaps the child before re-raising the exception), or some
other exception was raised while launching or running the process
(line 217). -/
inductive RunOutcome where
  | completed (returncode : Int) (stdout stderr : String)
  | timedOut
  | runError (msg : String)
  deriving DecidableEq

/-- Arguments dictionary of one tool call, restricted to the two keys
the handler reads: `code_snippet` (line 187) and `timeout` (line 191).
An absent field models an absent key.  A Python `None` or empty dict
for the whole `arguments` parameter is modelled by `Option Arguments`
at the call site (both are caught by `not arguments` on line 187; an
empty dict also lacks the `code_snippet` key). -/
structure Arguments where
  code_snippet : Option String
  timeout : Option Int
  deriving DecidableEq

/-- One invocation's view of the outside world: the path the
temporary-file module chooses (line 195), whether creating the
temporary file raises (line 194), whether writing or flushing the
script body raises (lines 198-199), the outcome of `subprocess.run`
(lines 203-208), and whether `os.unlink` succeeds (line 222). -/
structure Env where
  temp_path : String
  stage_error : Option String
  write_error : Option String
  outcome : RunOutcome
  unlink_ok : Bool
  deriving DecidableEq

/-- Outcome classification of the handler's return sites, following the
taxonomy Ok / Failed / TimedOut / InvalidRequest.  Each constructor
tags the return sites of `handle_call_tool` that belong to that class;
the Python code itself returns only text. -/
inductive Status where
  | ok
  | failed
  | timedOut
  | invalidRequest
  deriving DecidableEq

/-- Externally visible effects of one invocation, in order: creation of
the staged temporary file (line 194), spawning the interpreter process
with the timeout passed to `subprocess.run` (lines 202-208), the kill
`subprocess.run` performs on the still-running child when the timeout
expires (documented behaviour of `subprocess.run`, surfaced to the
handler as `TimeoutExpired` on line 215), and the unlink of the staged
file in the `finally` block (line 222), recording whether it
succeeded. -/
inductive Effect where
  | createTemp (path : String)
  | spawn (cmd : List String) (timeout : Int)
  | killOnTimeout
  | unlink (path : String) (ok : Bool)
  deriving DecidableEq

/-- Result of one handler invocation: the returned list of text blocks
(each Python `TextContent` is one string), the outcome classification
of the return site taken, and the effect trace. -/
structure HandlerResult where
  texts : List String
  status : Status
  trace : List Effect
  deriving DecidableEq

/-- Fixed interpreter binary invoked by the handler (line 202). -/
def osascript : String := "/usr/bin/osascript"

/-- Shallow embedding of `handle_call_tool` (server.py lines 180-229).
Branches, in source order: unknown tool name raises `ValueError`,
caught by the outer handler (lines 225-229); missing arguments or
missing `code_snippet` key raises `ValueError`, caught by the outer
handler (lines 186-188, 228-229); the timeout is read with default 60
(line 191); failure to create the temporary file is caught by the
outer handler (line 194, 228-229); failure to write the script body is
caught by the inner handler and still reaches the `finally` unlink
(lines 198-199, 217-224); otherwise `subprocess.run` executes and the
outcome is classified (lines 203-218), with the `finally` unlink on
every path (lines 219-224).  The unlink's own success never influences
the returned texts or the status, mirroring the bare `except: pass`
(lines 221-224). -/
def handle_call_tool (name : String) (arguments : Option Arguments)
    (env : Env) : HandlerResult :=
  if name = "applescript_execute" then
    match arguments with
    | none =>
      { texts := ["Error: Missing code_snippet argument"],
        status := Status.invalidRequest, trace := [] }
    | some a =>
      match a.code_snippet with
      | none =>
        { texts := ["Error: Missing code_snippet argument"],
          status := Status.invalidRequest, trace := [] }
      | some _snippet =>
        let timeout := a.timeout.getD 60
        match env.stage_error with
        | some msg =>
          { texts := ["Error: " ++ msg],
            status := Status.failed, trace := [] }
        | none =>
          match env.write_error with
          | some msg =>
            { texts := ["Error executing AppleScript: " ++ msg],
              status := Status.failed,
              trace := [Effect.createTemp env.temp_path,
                        Effect.unlink env.temp_path env.unlink_ok] }
          | none =>
            let cmd := [osascript, env.temp_path]
            match env.outcome with
            | RunOutcome.completed rc out err =>
              if rc ≠ 0 then
                { texts := ["AppleScript execution failed: " ++ err],
                  status := Status.failed,
                  trace := [Effect.createTemp env.temp_path,
                            Effect.spawn cmd timeout,
                            Effect.unlink env.temp_path env.unlink_ok] }
              else
                { texts := [out],
                  status := Status.ok,
                  trace := [Effect.createTemp env.temp_path,
                            Effect.spawn cmd timeout,
                            Effect.unlink env.temp_path env.unlink_ok] }
            | RunOutcome.timedOut =>
              { texts := ["AppleScript execution timed out after " ++
                            toString timeout ++ " seconds"],
                status := Status.timedOut,
                trace := [Effect.createTemp env.temp_path,
                          Effect.spawn cmd timeout,
                          Effect.killOnTimeout,
                          Effect.unlink env.temp_path env.unlink_ok] }
            | RunOutcome.runError msg =>
              { texts := ["Error executing AppleScript: " ++ msg],
                status := Status.failed,
                trace := [Effect.createTemp env.temp_path,
                          Effect.spawn cmd timeout,
                          Effect.unlink env.temp_path env.unlink_ok] }
  else
    { texts := ["Error: Unknown tool: " ++ name],
      status := Status.invalidRequest, trace := [] }

/-- Captured standard output of the interpreter process, when it ran to
completion. -/
def stdoutOf : RunOutcome → Option String
  | RunOutcome.completed _ out _ => some out
  | RunOutcome.timedOut => none
  | RunOutcome.runError _ => none

/-- Well-formedness of one response: exactly one text block, carrying
the captured standard output when the outcome class is Ok, and a
nonempty diagnostic string otherwise. -/
def goodResponse (env : Env) (r : HandlerResult) : Bool :=
  match r.texts with
  | [t] =>
    (r.status == Status.ok && some t == stdoutOf env.outcome) ||
      (!(r.status == Status.ok) && !(t == ""))
  | _ => false

/-- Helper: a string with a nonempty left part is nonempty after
appending. -/
theorem append_ne_empty (a b : String) (h : 0 < a.length) :
    a ++ b ≠ "" := by
  intro he
  have hl := congrArg String.length he
  rw [String.length_append] at hl
  have h0 : String.length "" = 0 := rfl
  omega

/-- Claim C1: for every handled request with a present code_snippet
(and a successfully created temporary file), the staged script is
unlinked on every exit path of the execution — exit code 0, non-zero
exit, timeout, write failure, and any other invocation error — and
whether the unlink itself succeeds changes neither the returned text
blocks nor the outcome classification. -/
theorem C1_staged_script_always_deleted (s : String) (tmo : Option Int)
    (p : String) (we : Option String) (oc : RunOutcome) (uo : Bool) :
    Effect.unlink p uo ∈
      (handle_call_tool "applescript_execute" (some ⟨some s, tmo⟩)
        ⟨p, none, we, oc, uo⟩).trace ∧
    (handle_call_tool "applescript_execute" (some ⟨some s, tmo⟩)
        ⟨p, none, we, oc, false⟩).texts =
      (handle_call_tool "applescript_execute" (some ⟨some s, tmo⟩)
        ⟨p, none, we, oc, true⟩).texts ∧
    (handle_call_tool "applescript_execute" (some ⟨some s, tmo⟩)
        ⟨p, none, we, oc, false⟩).status =
      (handle_call_tool "applescript_execute" (some ⟨some s, tmo⟩)
        ⟨p, none, we, oc, true⟩).status := by
  refine ⟨?_, ?_, ?_⟩ <;>
    cases we <;> cases oc <;>
      simp [handle_call_tool] <;> (split <;> simp)

/-- Claim C2 (counterexample): a request whose code_snippet is present
but equal to the empty string is not rejected — the handler stages the
script and spawns the interpreter instead of returning an
invalid-request result. -/
theorem C2_empty_snippet_not_rejected :
    (handle_call_tool "applescript_execute" (some ⟨some "", some 5⟩)
        ⟨"/tmp/tmpc2.scpt", none, none, RunOutcome.completed 0 "" "",
          true⟩).status ≠ Status.invalidRequest ∧
    Effect.spawn [osascript, "/tmp/tmpc2.scpt"] 5 ∈
      (handle_call_tool "applescript_execute" (some ⟨some "", some 5⟩)
        ⟨"/tmp/tmpc2.scpt", none, none, RunOutcome.completed 0 "" "",
          true⟩).trace := by
  constructor <;> simp [handle_call_tool, osascript]

/-- Claim C2 (amended): for every request whose script field is missing
— the arguments dictionary absent (or empty) or lacking the
code_snippet key — the handler returns an invalid-request result,
spawns no interpreter process and stages no artifact.  Only presence of
the key is checked, so an empty-string snippet proceeds to
execution. -/
theorem C2_missing_snippet_rejected (env : Env) (tmo : Option Int) :
    ((handle_call_tool "applescript_execute" none env).status =
        Status.invalidRequest ∧
      (handle_call_tool "applescript_execute" none env).trace = []) ∧
    ((handle_call_tool "applescript_execute" (some ⟨none, tmo⟩)
          env).status = Status.invalidRequest ∧
      (handle_call_tool "applescript_execute" (some ⟨none, tmo⟩)
          env).trace = []) := by
  refine ⟨⟨?_, ?_⟩, ⟨?_, ?_⟩⟩ <;> simp [handle_call_tool]

/-- Claim C3: for every valid request whose interpreter process exits
with code 0, the result is classified Ok and the single returned text
block equals exactly the text the process wrote to standard output. -/
theorem C3_exit_zero_returns_stdout (s out err p : String)
    (tmo : Option Int) (uo : Bool) :
    (handle_call_tool "applescript_execute" (some ⟨some s, tmo⟩)
        ⟨p, none, none, RunOutcome.completed 0 out err, uo⟩).status =
      Status.ok ∧
    (handle_call_tool "applescript_execute" (some ⟨some s, tmo⟩)
        ⟨p, none, none, RunOutcome.completed 0 out err, uo⟩).texts =
      [out] := by
  constructor <;> simp [handle_call_tool]

/-- Claim C4: for every valid request whose interpreter process exits
with a non-zero code, the result is classified Failed and the returned
text is the failure message carrying the captured standard-error stream
of the process (so the text contains that stream). -/
theorem C4_nonzero_exit_failed (s out err p : String) (tmo : Option Int)
    (uo : Bool) (rc : Int) (hrc : rc ≠ 0) :
    (handle_call_tool "applescript_execute" (some ⟨some s, tmo⟩)
        ⟨p, none, none, RunOutcome.completed rc out err, uo⟩).status =
      Status.failed ∧
    (handle_call_tool "applescript_execute" (some ⟨some s, tmo⟩)
        ⟨p, none, none, RunOutcome.completed rc out err, uo⟩).texts =
      ["AppleScript execution failed: " ++ err] := by
  constructor <;> simp [handle_call_tool, hrc]

/-- Claim C4 witness: concrete run with exit code 1 and error stream
text, classified Failed with the error stream surfaced. -/
theorem C4_nonzero_exit_failed_witness :
    (handle_call_tool "applescript_execute" (some ⟨some "x", none⟩)
        ⟨"/tmp/tmpc4.scpt", none, none,
          RunOutcome.completed 1 "" "boom", true⟩).status =
      Status.failed ∧
    (handle_call_tool "applescript_execute" (some ⟨some "x", none⟩)
        ⟨"/tmp/tmpc4.scpt", none, none,
          RunOutcome.completed 1 "" "boom", true⟩).texts =
      ["AppleScript execution failed: boom"] :=
  C4_nonzero_exit_failed "x" "" "boom" "/tmp/tmpc4.scpt" none true 1
    (by decide)

/-- Claim C5: for every valid request whose interpreter process exceeds
the requested timeout, the result is classified TimedOut and the
returned text states the timeout duration in seconds that was exceeded
(the requested value, or the default 60 when none was given). -/
theorem C5_timeout_states_duration (s p : String) (tmo : Option Int)
    (uo : Bool) :
    (handle_call_tool "applescript_execute" (some ⟨some s, tmo⟩)
        ⟨p, none, none, RunOutcome.timedOut, uo⟩).status =
      Status.timedOut ∧
    (handle_call_tool "applescript_execute" (some ⟨some s, tmo⟩)
        ⟨p, none, none, RunOutcome.timedOut, uo⟩).texts =
      ["AppleScript execution timed out after " ++
        toString (tmo.getD 60) ++ " seconds"] := by
  constructor <;> simp [handle_call_tool]

/-- Helper: a concatenation of three strings with a nonempty left part
is nonempty. -/
theorem append3_ne_empty (a b c : String) (h : 0 < a.length) :
    a ++ b ++ c ≠ "" := by
  intro he
  have hl := congrArg String.length he
  rw [String.length_append, String.length_append] at hl
  have h0 : String.length "" = 0 := rfl
  omega

/-- Claim C6: for every invocation of the handler — any tool name, any
arguments, any environment — the handler returns normally (the model is
a total function; every Python exception path is caught and converted
into a return) with exactly one text block, which equals the captured
standard output when the outcome class is Ok and is a nonempty
diagnostic string on every other outcome. -/
theorem C6_single_text_response (name : String)
    (arguments : Option Arguments) (env : Env) :
    goodResponse env (handle_call_tool name arguments env) = true := by
  rcases env with ⟨p, se, we, oc, uo⟩
  by_cases hn : name = "applescript_execute"
  · subst hn
    rcases arguments with _ | ⟨_ | s, tmo⟩
    · simp [handle_call_tool, goodResponse]
    · simp [handle_call_tool, goodResponse]
    · rcases se with _ | msg
      · rcases we with _ | msg
        · rcases oc with ⟨rc, out, err⟩ | _ | msg
          · rcases eq_or_ne rc 0 with hrc | hrc
            · subst hrc
              simp [handle_call_tool, goodResponse, stdoutOf]
            · simp [handle_call_tool, goodResponse, stdoutOf, hrc]
              exact append_ne_empty _ _ (by decide)
          · simp [handle_call_tool, goodResponse, stdoutOf]
            exact append3_ne_empty _ _ _ (by decide)
          · simp [handle_call_tool, goodResponse, stdoutOf]
            exact append_ne_empty _ _ (by decide)
        · simp [handle_call_tool, goodResponse, stdoutOf]
          exact append_ne_empty _ _ (by decide)
      · simp [handle_call_tool, goodResponse, stdoutOf]
        exact append_ne_empty _ _ (by decide)
  · simp [handle_call_tool, goodResponse, hn]
    exact append_ne_empty _ _ (by decide)

/-- Claim C7: for every invocation with a tool name other than the
single supported one, the handler returns a normal invalid-request
result naming the unknown tool, with no effects at all (no staging, no
process spawn), rather than letting the raised error escape. -/
theorem C7_unknown_tool_rejected (name : String)
    (arguments : Option Arguments) (env : Env)
    (h : name ≠ "applescript_execute") :
    handle_call_tool name arguments env =
      { texts := ["Error: Unknown tool: " ++ name],
        status := Status.invalidRequest, trace := [] } := by
  unfold handle_call_tool
  rw [if_neg h]

/-- Claim C7 witness: concrete invocation with an unsupported tool
name. -/
theorem C7_unknown_tool_rejected_witness :
    handle_call_tool "list_windows" (some ⟨some "x", none⟩)
        ⟨"/tmp/tmpc7.scpt", none, none, RunOutcome.timedOut, true⟩ =
      { texts := ["Error: Unknown tool: list_windows"],
        status := Status.invalidRequest, trace := [] } :=
  C7_unknown_tool_rejected "list_windows" (some ⟨some "x", none⟩)
    ⟨"/tmp/tmpc7.scpt", none, none, RunOutcome.timedOut, true⟩
    (by decide)

/-- Claim C8: for every request in which the timeout field is omitted,
the interpreter is invoked with a timeout of exactly 60 seconds. -/
theorem C8_default_timeout_60 (s p : String) (oc : RunOutcome)
    (uo : Bool) :
    Effect.spawn [osascript, p] 60 ∈
      (handle_call_tool "applescript_execute" (some ⟨some s, none⟩)
        ⟨p, none, none, oc, uo⟩).trace := by
  cases oc with
  | completed rc out err =>
    rcases eq_or_ne rc 0 with h | h <;> simp [handle_call_tool, h]
  | timedOut => simp [handle_call_tool]
  | runError msg => simp [handle_call_tool]

/-- Claim C9: for every request whose interpreter process is still
running when the timeout elapses, the process is actively terminated:
in the timeout outcome the effect trace contains the kill that
`subprocess.run` performs, per its documented contract, before raising
`TimeoutExpired` to the handler. -/
theorem C9_timeout_kills_process (s p : String) (tmo : Option Int)
    (uo : Bool) :
    Effect.killOnTimeout ∈
      (handle_call_tool "applescript_execute" (some ⟨some s, tmo⟩)
        ⟨p, none, none, RunOutcome.timedOut, uo⟩).trace := by
  simp [handle_call_tool]

/-- Claim C10: for every request carrying a code_snippet together with
any timeout value — including zero and negative integers — the handler
performs no validation of the timeout: the result is never classified
as an invalid request, and the interpreter invocation is still
attempted with that exact value passed through to the process
launcher. -/
theorem C10_timeout_not_validated (s p : String) (t : Int)
    (oc : RunOutcome) (uo : Bool) :
    (handle_call_tool "applescript_execute" (some ⟨some s, some t⟩)
        ⟨p, none, none, oc, uo⟩).status ≠ Status.invalidRequest ∧
    Effect.spawn [osascript, p] t ∈
      (handle_call_tool "applescript_execute" (some ⟨some s, some t⟩)
        ⟨p, none, none, oc, uo⟩).trace := by
  constructor <;>
    cases oc <;> simp [handle_call_tool] <;> (split <;> simp)

end AppleScriptMCP
